import Mathlib

/-!
Shallow embedding of the CoreBridge license-manager service
(`src/index.js`): the License / LicenseActivation data model, the
`POST /api/licenses/generate`, `POST /api/licenses/validate` and
`POST /api/licenses/:licenseId/revoke` handlers, translated to pure
Lean functions over an explicit store.

Modelling conventions:
- Timestamps (`Date` values) are natural numbers of milliseconds since
  the Unix epoch, in UTC.
- UUID primary keys are modelled as natural numbers; new activation ids
  come from a counter in the store (the concrete id value never affects
  the handlers' logic).
- Sequelize queries are modelled over the store's lists: `findOne` is
  `List.find?`, the `include` of a license's activations loads exactly
  the activations whose `licenseId` matches, `instance.update` rewrites
  the row with the matching primary key.
- JavaScript truthiness of the request's string fields: a missing field
  and the empty string are both falsy, so the embedding takes optional
  strings (or uses `""` for an absent required field).
- The JSONB `metadata` blob is modelled by the two keys this service
  ever writes (`revocationReason`, `revokedAt`).
-/

namespace LicenseManager

/-- Milliseconds in one day, the unit behind `moment().add(days, 'days')`
and `moment(d1).diff(d2, 'days')` in the UTC model. -/
def msPerDay : Nat := 86400000

/-- `License.status` enum: `ENUM('active', 'expired', 'revoked', 'suspended')`,
default `'active'`. -/
inductive LicenseStatus where
  | active
  | expired
  | revoked
  | suspended
deriving DecidableEq

/-- The string rendering of a `License.status` value, as interpolated into
the `'License is ' + license.status` message. -/
def LicenseStatus.str : LicenseStatus → String
  | .active => "active"
  | .expired => "expired"
  | .revoked => "revoked"
  | .suspended => "suspended"

/-- `LicenseActivation.status` enum: `ENUM('active', 'inactive', 'revoked')`,
default `'active'`. -/
inductive ActivationStatus where
  | active
  | inactive
  | revoked
deriving DecidableEq

/-- The `metadata` JSONB blob, restricted to the keys the service writes:
`revocationReason` and `revokedAt` (stamped by the revoke handler). -/
structure Metadata where
  revocationReason : Option String := none
  revokedAt : Option Nat := none
deriving DecidableEq

/-- A row of the `licenses` table (the `License` Sequelize model). -/
structure License where
  id : Nat
  licenseKey : String
  pluginId : String
  customerId : String
  customerEmail : String
  customerName : String
  licenseType : String
  status : LicenseStatus := .active
  issuedAt : Nat
  expiresAt : Nat
  activatedAt : Option Nat := none
  activatedBy : Option String := none
  activationCount : Nat := 0
  maxActivations : Nat := 1
  metadata : Metadata := {}
deriving DecidableEq

/-- A row of the `license_activations` table (the `LicenseActivation`
Sequelize model). -/
structure Activation where
  id : Nat
  licenseId : Nat
  machineId : String
  ipAddress : String
  userAgent : String
  activatedAt : Nat
  lastSeenAt : Nat
  status : ActivationStatus := .active
deriving DecidableEq

/-- The persistent state: the two tables, plus a counter supplying fresh
activation primary keys. -/
structure Store where
  licenses : List License
  activations : List Activation
  nextActivationId : Nat := 0
deriving DecidableEq

/-- `License.findOne({ where: { licenseKey, pluginId } })`. -/
def findLicense (s : Store) (licenseKey pluginId : String) : Option License :=
  s.licenses.find? (fun l => l.licenseKey == licenseKey && l.pluginId == pluginId)

/-- `License.findByPk(licenseId)`. -/
def findLicenseById (s : Store) (licenseId : Nat) : Option License :=
  s.licenses.find? (fun l => l.id == licenseId)

/-- `LicenseActivation.findOne({ where: { licenseId, machineId, status: 'active' } })`. -/
def findActiveActivation (s : Store) (licenseId : Nat) (machineId : String) :
    Option Activation :=
  s.activations.find? (fun a =>
    a.licenseId == licenseId && a.machineId == machineId && a.status == ActivationStatus.active)

/-- `license.activations.filter(a => a.status === 'active').length`: the
`include` loads exactly the activations with this `licenseId`, so the count
equals a filter over the whole table. -/
def activeActivationsOf (s : Store) (licenseId : Nat) : Nat :=
  (s.activations.filter (fun a =>
    a.licenseId == licenseId && a.status == ActivationStatus.active)).length

/-- `instance.update` on the license row with the given primary key. -/
def updateLicenseById (s : Store) (licenseId : Nat) (f : License → License) : Store :=
  { s with licenses := s.licenses.map (fun l => if l.id = licenseId then f l else l) }

/-- `instance.update` on the activation row with the given primary key. -/
def updateActivationById (s : Store) (activationId : Nat) (f : Activation → Activation) :
    Store :=
  { s with activations := s.activations.map (fun a => if a.id = activationId then f a else a) }

/-- The expiry test at the head of the validate handler:
`license.expiresAt < new Date()`. -/
def licenseIsExpiredAt (l : License) (now : Nat) : Bool :=
  decide (l.expiresAt < now)

/-- The `warningThresholds` object of a `valid: true` response. -/
structure WarningThresholds where
  show90DayWarning : Bool
  show60DayWarning : Bool
  show45DayWarning : Bool
  show30DayWarning : Bool
  show15DayWarning : Bool
  showDailyWarning : Bool
deriving DecidableEq

/-- The body of a `valid: true` response from the validate handler. -/
structure ValidBody where
  licenseId : Nat
  status : LicenseStatus
  licenseType : String
  expiresAt : Nat
  daysRemaining : Nat
  activationCount : Nat
  maxActivations : Nat
  warningThresholds : WarningThresholds
deriving DecidableEq

/-- The response of the validate handler: HTTP 400 for missing fields,
`valid: false` with a message, or `valid: true` with a body. -/
inductive ValidateResponse where
  | badRequest (message : String)
  | invalid (message : String)
  | valid (body : ValidBody)
deriving DecidableEq

/-- Whether a validate response is the `valid: true` one. -/
def ValidateResponse.isValid : ValidateResponse → Bool
  | .valid _ => true
  | _ => false

/-- The `valid: true` JSON body built at the end of the validate handler,
from the (possibly just updated) license instance and the previously
computed `daysRemaining`. -/
def validResponse (l : License) (daysRemaining : Nat) : ValidateResponse :=
  .valid {
    licenseId := l.id
    status := l.status
    licenseType := l.licenseType
    expiresAt := l.expiresAt
    daysRemaining := daysRemaining
    activationCount := l.activationCount
    maxActivations := l.maxActivations
    warningThresholds := {
      show90DayWarning := decide (daysRemaining ≤ 90)
      show60DayWarning := decide (daysRemaining ≤ 60)
      show45DayWarning := decide (daysRemaining ≤ 45)
      show30DayWarning := decide (daysRemaining ≤ 30)
      show15DayWarning := decide (daysRemaining ≤ 15)
      showDailyWarning := decide (daysRemaining ≤ 7) } }

/-- `POST /api/licenses/validate` from `src/index.js`.

Arguments mirror the request: `licenseKey`, `pluginId`, optional
`machineId`, plus `req.ip` and the `User-Agent` header used when creating
an activation, and `now` for the call's clock reading.  Returns the JSON
response and the store after the handler's writes.

`daysRemaining` is `moment(license.expiresAt).diff(moment(), 'days')`;
on this path `expiresAt ≥ now` holds (the expired branch already
returned), so moment's truncation toward zero is floor division of the
millisecond difference. -/
def validate (s : Store) (licenseKey pluginId : String) (machineId : Option String)
    (ip userAgent : String) (now : Nat) : ValidateResponse × Store :=
  if licenseKey = "" ∨ pluginId = "" then
    (.badRequest "License key and plugin ID are required", s)
  else
    match findLicense s licenseKey pluginId with
    | none => (.invalid "License not found", s)
    | some license =>
      if licenseIsExpiredAt license now then
        (.invalid "License has expired",
          updateLicenseById s license.id (fun l => { l with status := .expired }))
      else if license.status ≠ .active then
        (.invalid ("License is " ++ license.status.str), s)
      else
        let daysRemaining := (license.expiresAt - now) / msPerDay
        match machineId with
        | none => (validResponse license daysRemaining, s)
        | some m =>
          if m = "" then
            -- `if (machineId)`: the empty string is falsy, so the
            -- activation block is skipped.
            (validResponse license daysRemaining, s)
          else
            match findActiveActivation s license.id m with
            | some act =>
              (validResponse license daysRemaining,
                updateActivationById s act.id (fun a => { a with lastSeenAt := now }))
            | none =>
              if license.maxActivations ≤ activeActivationsOf s license.id then
                (.invalid "Maximum number of activations reached", s)
              else
                let newAct : Activation := {
                  id := s.nextActivationId
                  licenseId := license.id
                  machineId := m
                  ipAddress := ip
                  userAgent := userAgent
                  activatedAt := now
                  lastSeenAt := now
                  status := .active }
                let s1 : Store :=
                  { s with activations := s.activations ++ [newAct]
                           nextActivationId := s.nextActivationId + 1 }
                let s2 := updateLicenseById s1 license.id (fun l =>
                  { l with activationCount := l.activationCount + 1
                           activatedAt := some now
                           activatedBy := some m })
                (validResponse
                  { license with activationCount := license.activationCount + 1
                                 activatedAt := some now
                                 activatedBy := some m } daysRemaining, s2)

/-- The response of the revoke handler. -/
inductive RevokeResponse where
  | notFound
  | success
deriving DecidableEq

/-- `POST /api/licenses/:licenseId/revoke` from `src/index.js`: look up the
license by primary key (404 when absent), set its status to revoked and
stamp the metadata, then flip every active activation of that license to
revoked. -/
def revoke (s : Store) (licenseId : Nat) (reason : String) (now : Nat) :
    RevokeResponse × Store :=
  match findLicenseById s licenseId with
  | none => (.notFound, s)
  | some _ =>
    let s1 := updateLicenseById s licenseId (fun l =>
      { l with status := .revoked
               metadata := { l.metadata with revocationReason := some reason
                                             revokedAt := some now } })
    let s2 : Store :=
      { s1 with activations := s1.activations.map (fun a =>
          if a.licenseId = licenseId ∧ a.status = ActivationStatus.active then
            { a with status := ActivationStatus.revoked }
          else a) }
    (.success, s2)

/-- `CONFIG.LICENSE_VALIDITY_DAYS`: validity in days per license type;
`none` for a type outside the table. -/
def licenseValidityDays : String → Option Nat
  | "1-year" => some 365
  | "3-year" => some 1095
  | "5-year" => some 1825
  | _ => none

/-- `new Date('2099-12-31')` in epoch milliseconds (UTC midnight):
47481 days after 1970-01-01. -/
def perpetualSentinelMs : Nat := 4102358400000

/-- The response of the generate handler. -/
inductive GenerateResponse where
  | badRequest (message : String)
  | success (license : License)
deriving DecidableEq

/-- `POST /api/licenses/generate` from `src/index.js`.

`maxActivationsField` is the request's `maxActivations` property, `none`
when absent (the destructuring default `= 1` applies only then — a
supplied `0` is kept as is, there is no lower-bound check).
`licenseKey` stands for the `generateLicenseKey(pluginId, customerEmail)`
output and `customerId` for `generateCustomerId(customerEmail)` (hash
outputs, passed in as parameters); `newId` is the fresh UUID primary key.
Missing required fields are modelled by the empty string (falsy). -/
def generateLicense (s : Store) (pluginId customerName customerEmail licenseType : String)
    (maxActivationsField : Option Nat) (licenseKey : String) (newId : Nat)
    (customerId : String) (now : Nat) : GenerateResponse × Store :=
  let maxActivations := maxActivationsField.getD 1
  if pluginId = "" ∨ customerName = "" ∨ customerEmail = "" ∨ licenseType = "" then
    (.badRequest "Missing required fields", s)
  else
    let expiresAt? : Option Nat :=
      if licenseType = "perpetual" then some perpetualSentinelMs
      else (licenseValidityDays licenseType).map (fun days => now + days * msPerDay)
    match expiresAt? with
    | none => (.badRequest "Invalid license type", s)
    | some expiresAt =>
      let license : License := {
        id := newId
        licenseKey := licenseKey
        pluginId := pluginId
        customerId := customerId
        customerEmail := customerEmail
        customerName := customerName
        licenseType := licenseType
        status := .active
        issuedAt := now
        expiresAt := expiresAt
        activatedAt := none
        activatedBy := none
        activationCount := 0
        maxActivations := maxActivations
        metadata := {} }
      (.success license, { s with licenses := s.licenses ++ [license] })

/-- An operation of the validate/revoke sequences the invariant claims
range over. -/
inductive Op where
  | validateOp (licenseKey pluginId : String) (machineId : Option String)
      (ip userAgent : String) (now : Nat)
  | revokeOp (licenseId : Nat) (reason : String) (now : Nat)
deriving DecidableEq

/-- Whether an operation is a validate call. -/
def Op.isValidate : Op → Bool
  | .validateOp .. => true
  | .revokeOp .. => false

/-- Apply one operation to the store, discarding the response. -/
def applyOp (s : Store) : Op → Store
  | .validateOp k p m ip ua now => (validate s k p m ip ua now).snd
  | .revokeOp lid r now => (revoke s lid r now).snd

/-- Run a sequence of operations. -/
def runOps (s : Store) (ops : List Op) : Store :=
  ops.foldl applyOp s

/-- The store holding exactly one freshly issued license and no
activations. -/
def freshStore (l : License) : Store :=
  { licenses := [l], activations := [], nextActivationId := 0 }

/-- The spec's License invariant: every license's `activationCount` equals
the number of its activations with status active. -/
def countInvariant (s : Store) : Prop :=
  ∀ l ∈ s.licenses, l.activationCount = activeActivationsOf s l.id

instance (s : Store) : Decidable (countInvariant s) := by
  unfold countInvariant; exact inferInstance

/-- One call of the validate endpoint: the per-call arguments other than
the license key and plugin id. -/
structure ValidateCall where
  machineId : Option String
  ip : String
  userAgent : String
  now : Nat

/-- Run a sequence of validate calls against one (licenseKey, pluginId)
pair, collecting every response. -/
def validateSeq (s : Store) (licenseKey pluginId : String) :
    List ValidateCall → List ValidateResponse × Store
  | [] => ([], s)
  | c :: cs =>
    let r := validate s licenseKey pluginId c.machineId c.ip c.userAgent c.now
    let rest := validateSeq r.snd licenseKey pluginId cs
    (r.fst :: rest.fst, rest.snd)

/-! ## General helper lemmas -/

/-- `find?` commutes with a map that does not change the predicate's
verdict. -/
theorem find?_map_congr {α : Type} (g : α → α) (q : α → Bool)
    (h : ∀ x, q (g x) = q x) (l : List α) :
    (l.map g).find? q = (l.find? q).map g := by
  have hq : q ∘ g = q := funext h
  rw [List.find?_map, hq]

/-- Filtering after a map that does not change the predicate's verdict
keeps the length. -/
theorem filter_length_map {α : Type} (g : α → α) (q : α → Bool)
    (h : ∀ x, q (g x) = q x) (l : List α) :
    ((l.map g).filter q).length = (l.filter q).length := by
  have hq : q ∘ g = q := funext h
  rw [List.filter_map, hq, List.length_map]

/-- Updating a license row leaves the activation counts untouched. -/
theorem activeActivationsOf_updateLicenseById (s : Store) (lid : Nat)
    (f : License → License) (i : Nat) :
    activeActivationsOf (updateLicenseById s lid f) i = activeActivationsOf s i := rfl

/-- Looking a license up after a row update whose function keeps the key
and the plugin id: the same row is found, updated. -/
theorem findLicense_updateLicenseById (s : Store) (lid : Nat) (f : License → License)
    (hkey : ∀ x, (f x).licenseKey = x.licenseKey)
    (hpid : ∀ x, (f x).pluginId = x.pluginId) (k p : String) :
    findLicense (updateLicenseById s lid f) k p =
      (findLicense s k p).map (fun x => if x.id = lid then f x else x) := by
  unfold findLicense updateLicenseById
  exact find?_map_congr _ _
    (fun x => by by_cases hx : x.id = lid <;> simp [hx, hkey, hpid]) _

/-! ## Claim C9: validate without a machineId is a pure status check -/

/-- C9: a validate call with no `machineId`, against an active,
non-expired license, returns the `valid: true` response and leaves the
store entirely unchanged: no activation record is created or modified
and the license row (in particular `activationCount`, `activatedAt`,
`activatedBy`) is untouched. -/
theorem validate_no_machineId_frame (s : Store) (k p ip ua : String) (now : Nat)
    (l : License) (hk : k ≠ "") (hp : p ≠ "")
    (hfind : findLicense s k p = some l)
    (hact : l.status = LicenseStatus.active)
    (hexp : ¬ l.expiresAt < now) :
    validate s k p none ip ua now =
      (validResponse l ((l.expiresAt - now) / msPerDay), s) := by
  simp [validate, hk, hp, hfind, licenseIsExpiredAt, hexp, hact]

/-- A concrete active one-year license used by the C9 witness. -/
def c9License : License :=
  { id := 1
    licenseKey := "K"
    pluginId := "P"
    customerId := "C"
    customerEmail := "e"
    customerName := "n"
    licenseType := "1-year"
    status := .active
    issuedAt := 0
    expiresAt := 950400000
    activationCount := 0
    maxActivations := 1
    metadata := {} }

/-- The store holding `c9License` and no activations. -/
def c9Store : Store :=
  { licenses := [c9License], activations := [], nextActivationId := 0 }

/-- C9 witness: a concrete no-machineId call on an active license. -/
theorem validate_no_machineId_frame_witness :
    validate c9Store "K" "P" none "ip" "ua" 86400000 =
      (validResponse c9License ((950400000 - 86400000) / msPerDay), c9Store) :=
  validate_no_machineId_frame c9Store "K" "P" "ip" "ua" 86400000 c9License
    (by decide) (by decide) (by decide) (by decide) (by decide)

/-! ## Claim C8: validate with an already-activated machineId -/

/-- C8: when the machineId already has an active activation for the
license, validate refreshes that activation's `lastSeenAt` to `now` and
returns the `valid: true` response built from the unchanged license (so
`activationCount` is unchanged), leaving the license rows untouched.  No
activation-cap hypothesis appears: this holds also when the license is
at its cap. -/
theorem validate_existing_activation_refresh (s : Store) (k p m ip ua : String)
    (now : Nat) (l : License) (act : Activation)
    (hk : k ≠ "") (hp : p ≠ "") (hm : m ≠ "")
    (hfind : findLicense s k p = some l)
    (hact : l.status = LicenseStatus.active)
    (hexp : ¬ l.expiresAt < now)
    (hex : findActiveActivation s l.id m = some act) :
    validate s k p (some m) ip ua now =
      (validResponse l ((l.expiresAt - now) / msPerDay),
        updateActivationById s act.id (fun a => { a with lastSeenAt := now })) ∧
    (validate s k p (some m) ip ua now).snd.licenses = s.licenses := by
  have hmain : validate s k p (some m) ip ua now =
      (validResponse l ((l.expiresAt - now) / msPerDay),
        updateActivationById s act.id (fun a => { a with lastSeenAt := now })) := by
    simp [validate, hk, hp, hfind, licenseIsExpiredAt, hexp, hact, hm, hex]
  exact ⟨hmain, by rw [hmain]; rfl⟩

/-- A concrete license at its activation cap (`maxActivations = 1`,
one active activation), used by the C8 witness. -/
def c8License : License :=
  { id := 1
    licenseKey := "K"
    pluginId := "P"
    customerId := "C"
    customerEmail := "e"
    customerName := "n"
    licenseType := "1-year"
    status := .active
    issuedAt := 0
    expiresAt := 950400000
    activationCount := 1
    maxActivations := 1
    metadata := {} }

/-- The active activation of `c8License` for machine `"A"`. -/
def c8Activation : Activation :=
  { id := 7
    licenseId := 1
    machineId := "A"
    ipAddress := "ip0"
    userAgent := "ua0"
    activatedAt := 0
    lastSeenAt := 0
    status := .active }

/-- The store holding `c8License` at its cap. -/
def c8Store : Store :=
  { licenses := [c8License], activations := [c8Activation], nextActivationId := 8 }

/-- C8 witness: machine `"A"` revalidates against a license already at
its activation cap. -/
theorem validate_existing_activation_refresh_witness :
    validate c8Store "K" "P" (some "A") "ip" "ua" 86400000 =
      (validResponse c8License ((950400000 - 86400000) / msPerDay),
        updateActivationById c8Store 7 (fun a => { a with lastSeenAt := 86400000 })) ∧
    (validate c8Store "K" "P" (some "A") "ip" "ua" 86400000).snd.licenses =
      c8Store.licenses :=
  validate_existing_activation_refresh c8Store "K" "P" "A" "ip" "ua" 86400000
    c8License c8Activation (by decide) (by decide) (by decide) (by decide)
    (by decide) (by decide) (by decide)

/-! ## Claim C2: validating a revoked license -/

/-- C2 (amended): for a stored revoked license whose `expiresAt` is not
in the past, validate returns the invalid verdict with message
"License is revoked" and leaves the store (in particular the license's
status) unchanged.  The restriction to non-past `expiresAt` is forced:
the expired transition in the handler runs before the status check and
does not test the current status. -/
theorem validate_revoked_unexpired_invalid (s : Store) (k p ip ua : String)
    (m : Option String) (now : Nat) (l : License)
    (hk : k ≠ "") (hp : p ≠ "")
    (hfind : findLicense s k p = some l)
    (hrev : l.status = LicenseStatus.revoked)
    (hexp : ¬ l.expiresAt < now) :
    validate s k p m ip ua now = (.invalid "License is revoked", s) := by
  simp [validate, hk, hp, hfind, licenseIsExpiredAt, hexp, hrev, LicenseStatus.str]

/-- A concrete revoked license whose expiry is already past, used by the
C2 counterexample and witness. -/
def c2RevokedLicense : License :=
  { id := 1
    licenseKey := "K"
    pluginId := "P"
    customerId := "C"
    customerEmail := "e"
    customerName := "n"
    licenseType := "1-year"
    status := .revoked
    issuedAt := 0
    expiresAt := 5
    activationCount := 0
    maxActivations := 1
    metadata := {} }

/-- The store holding the revoked, past-expiry license. -/
def c2Store : Store :=
  { licenses := [c2RevokedLicense], activations := [], nextActivationId := 0 }

/-- C2 counterexample: validating a revoked license whose `expiresAt` is
in the past does not answer "license is revoked" and does not leave the
status unchanged — the handler's expiry branch fires first (it never
checks the current status), answers "License has expired" and overwrites
the revoked status with expired. -/
theorem validate_revoked_expired_overwrites_status :
    (validate c2Store "K" "P" none "ip" "ua" 10).fst = .invalid "License has expired" ∧
    (validate c2Store "K" "P" none "ip" "ua" 10).fst ≠ .invalid "license is revoked" ∧
    (validate c2Store "K" "P" none "ip" "ua" 10).fst ≠ .invalid "License is revoked" ∧
    findLicense (validate c2Store "K" "P" none "ip" "ua" 10).snd "K" "P" =
      some { c2RevokedLicense with status := LicenseStatus.expired } := by
  decide

/-- A concrete revoked license that is not yet expired, for the C2
witness. -/
def c2UnexpiredRevoked : License :=
  { id := 2
    licenseKey := "K2"
    pluginId := "P"
    customerId := "C"
    customerEmail := "e"
    customerName := "n"
    licenseType := "1-year"
    status := .revoked
    issuedAt := 0
    expiresAt := 999999
    activationCount := 0
    maxActivations := 1
    metadata := {} }

/-- The store holding the revoked, not-yet-expired license. -/
def c2StoreB : Store :=
  { licenses := [c2UnexpiredRevoked], activations := [], nextActivationId := 0 }

/-- C2 witness: a concrete revoked, unexpired license validates to
"License is revoked" with the store unchanged. -/
theorem validate_revoked_unexpired_invalid_witness :
    validate c2StoreB "K2" "P" none "ip" "ua" 10 =
      (.invalid "License is revoked", c2StoreB) :=
  validate_revoked_unexpired_invalid c2StoreB "K2" "P" "ip" "ua" none 10
    c2UnexpiredRevoked (by decide) (by decide) (by decide) (by decide) (by decide)

/-! ## Claim C4: activation admission for a new machineId -/

/-- C4 (amended): for an active, non-expired license and a machineId with
no existing active activation: when the count of active activations has
reached `maxActivations`, validate answers the invalid verdict with
message "Maximum number of activations reached" and changes nothing;
otherwise it appends a new active activation for (license, machineId),
increments the license's `activationCount` by one, sets `activatedAt`
to `now` and `activatedBy` to the machineId, and answers the
`valid: true` response built from the updated license.  (The claim's
quoted reason string is amended to the handler's actual message.) -/
theorem validate_admission_spec (s : Store) (k p m ip ua : String)
    (now : Nat) (l : License)
    (hk : k ≠ "") (hp : p ≠ "") (hm : m ≠ "")
    (hfind : findLicense s k p = some l)
    (hact : l.status = LicenseStatus.active)
    (hexp : ¬ l.expiresAt < now)
    (hnone : findActiveActivation s l.id m = none) :
    (l.maxActivations ≤ activeActivationsOf s l.id →
      validate s k p (some m) ip ua now =
        (.invalid "Maximum number of activations reached", s)) ∧
    (activeActivationsOf s l.id < l.maxActivations →
      validate s k p (some m) ip ua now =
        (validResponse { l with activationCount := l.activationCount + 1
                                activatedAt := some now
                                activatedBy := some m }
           ((l.expiresAt - now) / msPerDay),
         updateLicenseById
           { s with
             activations := s.activations ++
               [{ id := s.nextActivationId
                  licenseId := l.id
                  machineId := m
                  ipAddress := ip
                  userAgent := ua
                  activatedAt := now
                  lastSeenAt := now
                  status := .active }],
             nextActivationId := s.nextActivationId + 1 }
           l.id (fun x => { x with activationCount := x.activationCount + 1
                                   activatedAt := some now
                                   activatedBy := some m }))) := by
  constructor
  · intro hcap
    simp [validate, hk, hp, hfind, licenseIsExpiredAt, hexp, hact, hm, hnone, hcap]
  · intro hroom
    have hcap : ¬ l.maxActivations ≤ activeActivationsOf s l.id :=
      Nat.not_le.mpr hroom
    simp [validate, hk, hp, hfind, licenseIsExpiredAt, hexp, hact, hm, hnone, hcap]

/-- A concrete license at its cap, used by the C4 counterexample. -/
def c4License : License :=
  { id := 1
    licenseKey := "K"
    pluginId := "P"
    customerId := "C"
    customerEmail := "e"
    customerName := "n"
    licenseType := "1-year"
    status := .active
    issuedAt := 0
    expiresAt := 950400000
    activationCount := 1
    maxActivations := 1
    metadata := {} }

/-- The activation consuming `c4License`'s single slot. -/
def c4Activation : Activation :=
  { id := 0
    licenseId := 1
    machineId := "A"
    ipAddress := "ip0"
    userAgent := "ua0"
    activatedAt := 0
    lastSeenAt := 0
    status := .active }

/-- The store holding `c4License` at its cap. -/
def c4Store : Store :=
  { licenses := [c4License], activations := [c4Activation], nextActivationId := 1 }

/-- C4 counterexample: at the cap the handler's verdict message is
"Maximum number of activations reached", not the claim's quoted
"maximum activations reached". -/
theorem validate_cap_message_cex :
    (validate c4Store "K" "P" (some "B") "ip" "ua" 10).fst =
      .invalid "Maximum number of activations reached" ∧
    (validate c4Store "K" "P" (some "B") "ip" "ua" 10).fst ≠
      .invalid "maximum activations reached" := by
  decide

/-- A one-slot license with a free slot, for the C4 witness's admission
half. -/
def c4FreeLicense : License :=
  { id := 3
    licenseKey := "KF"
    pluginId := "P"
    customerId := "C"
    customerEmail := "e"
    customerName := "n"
    licenseType := "1-year"
    status := .active
    issuedAt := 0
    expiresAt := 950400000
    activationCount := 0
    maxActivations := 1
    metadata := {} }

/-- The store holding `c4FreeLicense` with no activations. -/
def c4FreeStore : Store :=
  { licenses := [c4FreeLicense], activations := [], nextActivationId := 0 }

/-- C4 witness: the cap half at the full store and the admission half at
the free store, both at concrete inputs. -/
theorem validate_admission_spec_witness :
    validate c4Store "K" "P" (some "B") "ip" "ua" 10 =
      (.invalid "Maximum number of activations reached", c4Store) ∧
    validate c4FreeStore "KF" "P" (some "B") "ip" "ua" 10 =
      (validResponse { c4FreeLicense with activationCount := 1
                                          activatedAt := some 10
                                          activatedBy := some "B" }
         ((950400000 - 10) / msPerDay),
       updateLicenseById
         { c4FreeStore with
           activations :=
             [{ id := 0
                licenseId := 3
                machineId := "B"
                ipAddress := "ip"
                userAgent := "ua"
                activatedAt := 10
                lastSeenAt := 10
                status := .active }],
           nextActivationId := 1 }
         3 (fun x => { x with activationCount := x.activationCount + 1
                              activatedAt := some 10
                              activatedBy := some "B" })) :=
  ⟨(validate_admission_spec c4Store "K" "P" "B" "ip" "ua" 10 c4License
      (by decide) (by decide) (by decide) (by decide) (by decide) (by decide)
      (by decide)).1 (by decide),
   (validate_admission_spec c4FreeStore "KF" "P" "B" "ip" "ua" 10 c4FreeLicense
      (by decide) (by decide) (by decide) (by decide) (by decide) (by decide)
      (by decide)).2 (by decide)⟩

/-! ## Claim C3: lazy expiry is a terminal state under repeated validation -/

/-- Any validate call that finds a license whose `expiresAt` is before
the call's clock answers "License has expired" and persists status
expired — regardless of the license's current status. -/
theorem validate_past_expiry (s : Store) (k p : String) (m : Option String)
    (ip ua : String) (now : Nat) (l : License)
    (hk : k ≠ "") (hp : p ≠ "")
    (hfind : findLicense s k p = some l) (hexp : l.expiresAt < now) :
    validate s k p m ip ua now =
      (.invalid "License has expired",
        updateLicenseById s l.id (fun x => { x with status := .expired })) := by
  simp [validate, hk, hp, hfind, licenseIsExpiredAt, hexp]

/-- After the expiry write, the same (key, plugin) lookup finds the same
row with status expired and the same `expiresAt`. -/
theorem findLicense_after_expiry_write (s : Store) (l : License) (k p : String)
    (hfind : findLicense s k p = some l) :
    findLicense (updateLicenseById s l.id (fun x => { x with status := .expired })) k p =
      some { l with status := LicenseStatus.expired } := by
  rw [findLicense_updateLicenseById s l.id
    (fun x => { x with status := LicenseStatus.expired })
    (fun x => rfl) (fun x => rfl) k p, hfind]
  simp

/-- Once the stored status is expired and every remaining call's clock is
past `expiresAt`, every response of the remaining calls is
"License has expired" and the stored status stays expired. -/
theorem validateSeq_stays_expired (k p : String) (hk : k ≠ "") (hp : p ≠ "")
    (calls : List ValidateCall) :
    ∀ (s : Store) (l : License), findLicense s k p = some l →
      l.status = LicenseStatus.expired →
      (∀ c ∈ calls, l.expiresAt < c.now) →
      (∀ r ∈ (validateSeq s k p calls).fst, r = .invalid "License has expired") ∧
      ∃ l', findLicense (validateSeq s k p calls).snd k p = some l' ∧
        l'.status = LicenseStatus.expired ∧ l'.expiresAt = l.expiresAt := by
  induction calls with
  | nil =>
    intro s l hfind hst _
    exact ⟨by simp [validateSeq], l, hfind, hst, rfl⟩
  | cons c cs ih =>
    intro s l hfind hst htimes
    have hc : l.expiresAt < c.now := htimes c (List.mem_cons_self c cs)
    have hstep := validate_past_expiry s k p c.machineId c.ip c.userAgent c.now l
      hk hp hfind hc
    have hfind1 := findLicense_after_expiry_write s l k p hfind
    have hrec := ih
      (updateLicenseById s l.id (fun x => { x with status := .expired }))
      { l with status := LicenseStatus.expired } hfind1 rfl
      (fun d hd => htimes d (List.mem_cons_of_mem c hd))
    constructor
    · intro r hr
      rw [validateSeq] at hr
      simp only [hstep] at hr
      rcases List.mem_cons.mp hr with h1 | h2
      · exact h1
      · exact hrec.1 r h2
    · rcases hrec.2 with ⟨l', hl', hst', hexp'⟩
      refine ⟨l', ?_, hst', hexp'⟩
      rw [validateSeq]
      simp only [hstep]
      exact hl'

/-- C3: a license stored as active whose `expiresAt` is strictly before
the first call's clock: that first validate call persists status expired
and answers the invalid verdict, and every subsequent validate call
(at clocks also past `expiresAt`) answers the invalid verdict with the
stored status remaining expired, however many times validation is
repeated. -/
theorem validate_expiry_terminal (s : Store) (k p : String) (l : License)
    (c : ValidateCall) (cs : List ValidateCall)
    (hk : k ≠ "") (hp : p ≠ "")
    (hfind : findLicense s k p = some l)
    (_hact : l.status = LicenseStatus.active)
    (hc : l.expiresAt < c.now)
    (hcs : ∀ d ∈ cs, l.expiresAt < d.now) :
    (validate s k p c.machineId c.ip c.userAgent c.now).fst =
      .invalid "License has expired" ∧
    (∃ l₁, findLicense (validate s k p c.machineId c.ip c.userAgent c.now).snd k p =
       some l₁ ∧ l₁.status = LicenseStatus.expired) ∧
    (∀ r ∈ (validateSeq s k p (c :: cs)).fst, r = .invalid "License has expired") ∧
    ∃ l₂, findLicense (validateSeq s k p (c :: cs)).snd k p = some l₂ ∧
      l₂.status = LicenseStatus.expired := by
  have hstep := validate_past_expiry s k p c.machineId c.ip c.userAgent c.now l
    hk hp hfind hc
  have hfind1 := findLicense_after_expiry_write s l k p hfind
  have hrec := validateSeq_stays_expired k p hk hp cs
    (updateLicenseById s l.id (fun x => { x with status := .expired }))
    { l with status := LicenseStatus.expired } hfind1 rfl
    (fun d hd => hcs d hd)
  refine ⟨by rw [hstep], ⟨{ l with status := LicenseStatus.expired }, ?_, rfl⟩, ?_, ?_⟩
  · rw [hstep]; exact hfind1
  · intro r hr
    rw [validateSeq] at hr
    simp only [hstep] at hr
    rcases List.mem_cons.mp hr with h1 | h2
    · exact h1
    · exact hrec.1 r h2
  · rcases hrec.2 with ⟨l', hl', hst', _⟩
    refine ⟨l', ?_, hst'⟩
    rw [validateSeq]
    simp only [hstep]
    exact hl'

/-- A concrete active license already past its expiry, for the C3
witness. -/
def c3License : License :=
  { id := 1
    licenseKey := "K"
    pluginId := "P"
    customerId := "C"
    customerEmail := "e"
    customerName := "n"
    licenseType := "1-year"
    status := .active
    issuedAt := 0
    expiresAt := 5
    activationCount := 0
    maxActivations := 1
    metadata := {} }

/-- The store holding the past-expiry active license. -/
def c3Store : Store :=
  { licenses := [c3License], activations := [], nextActivationId := 0 }

/-- The C3 witness's first call. -/
def c3Call1 : ValidateCall := { machineId := none, ip := "ip", userAgent := "ua", now := 10 }

/-- The C3 witness's second call. -/
def c3Call2 : ValidateCall :=
  { machineId := some "A", ip := "ip", userAgent := "ua", now := 20 }

/-- C3 witness: two concrete calls past expiry — both answer the expired
verdict and the stored status ends (and stays) expired. -/
theorem validate_expiry_terminal_witness :
    (validate c3Store "K" "P" c3Call1.machineId c3Call1.ip c3Call1.userAgent
        c3Call1.now).fst = .invalid "License has expired" ∧
    (∃ l₁, findLicense (validate c3Store "K" "P" c3Call1.machineId c3Call1.ip
        c3Call1.userAgent c3Call1.now).snd "K" "P" = some l₁ ∧
      l₁.status = LicenseStatus.expired) ∧
    (∀ r ∈ (validateSeq c3Store "K" "P" [c3Call1, c3Call2]).fst,
      r = .invalid "License has expired") ∧
    ∃ l₂, findLicense (validateSeq c3Store "K" "P" [c3Call1, c3Call2]).snd "K" "P" =
      some l₂ ∧ l₂.status = LicenseStatus.expired :=
  validate_expiry_terminal c3Store "K" "P" c3License c3Call1 [c3Call2]
    (by decide) (by decide) (by decide) (by decide) (by decide)
    (by intro d hd; simp only [List.mem_singleton] at hd; rw [hd]; decide)

/-! ## Claim C5: revocation -/

/-- C5: revoking an existing license answers success, sets that
license's status to revoked and stamps its metadata with the reason and
the revocation time; every previously-active activation of the license
reappears with status revoked, no activation of the license remains
active, and activations of other licenses are untouched.  Revoking an
unknown licenseId answers NotFound and changes no state. -/
theorem revoke_spec (s : Store) (licenseId : Nat) (reason : String) (now : Nat) :
    (findLicenseById s licenseId = none →
      revoke s licenseId reason now = (.notFound, s)) ∧
    (∀ l, findLicenseById s licenseId = some l →
      (revoke s licenseId reason now).fst = .success ∧
      (∀ l' ∈ (revoke s licenseId reason now).snd.licenses, l'.id = licenseId →
        l'.status = LicenseStatus.revoked ∧
        l'.metadata.revocationReason = some reason ∧
        l'.metadata.revokedAt = some now) ∧
      (∀ a ∈ s.activations, a.licenseId = licenseId →
        a.status = ActivationStatus.active →
        { a with status := ActivationStatus.revoked } ∈
          (revoke s licenseId reason now).snd.activations) ∧
      (∀ a ∈ (revoke s licenseId reason now).snd.activations,
        a.licenseId = licenseId → a.status ≠ ActivationStatus.active) ∧
      (∀ a ∈ s.activations, a.licenseId ≠ licenseId →
        a ∈ (revoke s licenseId reason now).snd.activations)) := by
  constructor
  · intro hnone
    rw [revoke, hnone]
  · intro l hsome
    have hrev : revoke s licenseId reason now =
        (.success,
          { updateLicenseById s licenseId (fun x =>
              { x with status := .revoked
                       metadata := { x.metadata with revocationReason := some reason
                                                     revokedAt := some now } }) with
            activations := s.activations.map (fun a =>
              if a.licenseId = licenseId ∧ a.status = ActivationStatus.active then
                { a with status := ActivationStatus.revoked }
              else a) }) := by
      rw [revoke, hsome]
      rfl
    refine ⟨by rw [hrev], ?_, ?_, ?_, ?_⟩
    · intro l' hl' hid
      rw [hrev] at hl'
      rcases List.mem_map.mp hl' with ⟨l0, _, heq⟩
      by_cases h0 : l0.id = licenseId
      · rw [if_pos h0] at heq
        rw [← heq]
        exact ⟨rfl, rfl, rfl⟩
      · rw [if_neg h0] at heq
        rw [← heq] at hid
        exact absurd hid h0
    · intro a ha hid hst
      rw [hrev]
      refine List.mem_map.mpr ⟨a, ha, ?_⟩
      rw [if_pos ⟨hid, hst⟩]
    · intro a ha hid
      rw [hrev] at ha
      rcases List.mem_map.mp ha with ⟨a0, _, heq⟩
      by_cases h0 : a0.licenseId = licenseId ∧ a0.status = ActivationStatus.active
      · rw [if_pos h0] at heq
        rw [← heq]
        intro hcontra
        exact absurd hcontra (by simp)
      · rw [if_neg h0] at heq
        rw [← heq] at hid ⊢
        intro hst
        exact h0 ⟨hid, hst⟩
    · intro a ha hid
      rw [hrev]
      refine List.mem_map.mpr ⟨a, ha, ?_⟩
      rw [if_neg (fun hcontra => hid hcontra.1)]

/-- A concrete license with one active and one inactive activation, plus
a foreign activation, for the C5 witness. -/
def c5License : License :=
  { id := 1
    licenseKey := "K"
    pluginId := "P"
    customerId := "C"
    customerEmail := "e"
    customerName := "n"
    licenseType := "1-year"
    status := .active
    issuedAt := 0
    expiresAt := 950400000
    activationCount := 1
    maxActivations := 2
    metadata := {} }

/-- The store for the C5 witness: `c5License` with an active activation
and an activation of another license. -/
def c5Store : Store :=
  { licenses := [c5License]
    activations :=
      [{ id := 0
         licenseId := 1
         machineId := "A"
         ipAddress := "ip"
         userAgent := "ua"
         activatedAt := 0
         lastSeenAt := 0
         status := .active },
       { id := 1
         licenseId := 9
         machineId := "B"
         ipAddress := "ip"
         userAgent := "ua"
         activatedAt := 0
         lastSeenAt := 0
         status := .active }]
    nextActivationId := 2 }

/-- C5 witness: revoking the concrete license answers success, and
revoking an id with no license answers NotFound with the store
unchanged. -/
theorem revoke_spec_witness :
    (revoke c5Store 1 "compromised" 99).fst = .success ∧
    revoke c5Store 42 "nope" 99 = (.notFound, c5Store) :=
  ⟨((revoke_spec c5Store 1 "compromised" 99).2 c5License (by decide)).1,
   (revoke_spec c5Store 42 "nope" 99).1 (by decide)⟩

/-! ## Claim C6: daysRemaining and the warning flags -/

/-- Unpacking a `valid: true` response built by `validResponse`. -/
theorem validResponse_flags (l : License) (now : Nat) (b : ValidBody)
    (hexp : ¬ l.expiresAt < now)
    (h : validResponse l ((l.expiresAt - now) / msPerDay) = .valid b) :
    now ≤ b.expiresAt ∧
    b.daysRemaining = (b.expiresAt - now) / msPerDay ∧
    (b.warningThresholds.show90DayWarning = true ↔ b.daysRemaining ≤ 90) ∧
    (b.warningThresholds.show60DayWarning = true ↔ b.daysRemaining ≤ 60) ∧
    (b.warningThresholds.show45DayWarning = true ↔ b.daysRemaining ≤ 45) ∧
    (b.warningThresholds.show30DayWarning = true ↔ b.daysRemaining ≤ 30) ∧
    (b.warningThresholds.show15DayWarning = true ↔ b.daysRemaining ≤ 15) ∧
    (b.warningThresholds.showDailyWarning = true ↔ b.daysRemaining ≤ 7) := by
  unfold validResponse at h
  injection h with hb
  subst hb
  refine ⟨Nat.le_of_not_lt hexp, rfl, ?_, ?_, ?_, ?_, ?_, ?_⟩ <;>
    simp

/-- C6: every `valid: true` verdict of the validate handler carries
`daysRemaining` equal to the floor of `(expiresAt - now)` in whole days
(`expiresAt ≥ now` holds on every valid path, so moment's
truncation-toward-zero is the floor), and each of the six warning flags
is true exactly when `daysRemaining` is at most its threshold
(90, 60, 45, 30, 15, 7). -/
theorem valid_verdict_warning_flags (s : Store) (k p : String) (m : Option String)
    (ip ua : String) (now : Nat) (b : ValidBody)
    (h : (validate s k p m ip ua now).fst = .valid b) :
    now ≤ b.expiresAt ∧
    b.daysRemaining = (b.expiresAt - now) / msPerDay ∧
    (b.warningThresholds.show90DayWarning = true ↔ b.daysRemaining ≤ 90) ∧
    (b.warningThresholds.show60DayWarning = true ↔ b.daysRemaining ≤ 60) ∧
    (b.warningThresholds.show45DayWarning = true ↔ b.daysRemaining ≤ 45) ∧
    (b.warningThresholds.show30DayWarning = true ↔ b.daysRemaining ≤ 30) ∧
    (b.warningThresholds.show15DayWarning = true ↔ b.daysRemaining ≤ 15) ∧
    (b.warningThresholds.showDailyWarning = true ↔ b.daysRemaining ≤ 7) := by
  by_cases hkp : k = "" ∨ p = ""
  · rcases hkp with h1 | h1 <;> simp [validate, h1] at h
  · push_neg at hkp
    obtain ⟨hk, hp⟩ := hkp
    cases hfind : findLicense s k p with
    | none => simp [validate, hk, hp, hfind] at h
    | some l =>
      by_cases hexp : l.expiresAt < now
      · simp [validate, hk, hp, hfind, licenseIsExpiredAt, hexp] at h
      · by_cases hst : l.status = LicenseStatus.active
        · cases m with
          | none =>
            have hform : (validate s k p none ip ua now).fst =
                validResponse l ((l.expiresAt - now) / msPerDay) := by
              simp [validate, hk, hp, hfind, licenseIsExpiredAt, hexp, hst]
            rw [hform] at h
            exact validResponse_flags l now b hexp h
          | some mv =>
            by_cases hmv : mv = ""
            · subst hmv
              have hform : (validate s k p (some "") ip ua now).fst =
                  validResponse l ((l.expiresAt - now) / msPerDay) := by
                simp [validate, hk, hp, hfind, licenseIsExpiredAt, hexp, hst]
              rw [hform] at h
              exact validResponse_flags l now b hexp h
            · cases hexa : findActiveActivation s l.id mv with
              | some act =>
                have hform : (validate s k p (some mv) ip ua now).fst =
                    validResponse l ((l.expiresAt - now) / msPerDay) := by
                  simp [validate, hk, hp, hfind, licenseIsExpiredAt, hexp, hst,
                    hmv, hexa]
                rw [hform] at h
                exact validResponse_flags l now b hexp h
              | none =>
                by_cases hcap : l.maxActivations ≤ activeActivationsOf s l.id
                · simp [validate, hk, hp, hfind, licenseIsExpiredAt, hexp, hst,
                    hmv, hexa, hcap] at h
                · have hform : (validate s k p (some mv) ip ua now).fst =
                      validResponse
                        { l with activationCount := l.activationCount + 1
                                 activatedAt := some now
                                 activatedBy := some mv }
                        ((l.expiresAt - now) / msPerDay) := by
                    simp [validate, hk, hp, hfind, licenseIsExpiredAt, hexp, hst,
                      hmv, hexa, hcap]
                  rw [hform] at h
                  exact validResponse_flags
                    { l with activationCount := l.activationCount + 1
                             activatedAt := some now
                             activatedBy := some mv } now b hexp h
        · simp [validate, hk, hp, hfind, licenseIsExpiredAt, hexp, hst] at h

/-- The concrete `valid: true` body produced by the C6 witness call:
seven days remain, so every warning flag is on. -/
def c6Body : ValidBody :=
  { licenseId := 1
    status := .active
    licenseType := "1-year"
    expiresAt := 950400000
    daysRemaining := (950400000 - 345600000) / msPerDay
    activationCount := 0
    maxActivations := 1
    warningThresholds :=
      { show90DayWarning := true
        show60DayWarning := true
        show45DayWarning := true
        show30DayWarning := true
        show15DayWarning := true
        showDailyWarning := true } }

/-- C6 witness: a concrete validate call whose verdict is valid, with
the flag equivalences instantiated. -/
theorem valid_verdict_warning_flags_witness :
    345600000 ≤ c6Body.expiresAt ∧
    c6Body.daysRemaining = (c6Body.expiresAt - 345600000) / msPerDay ∧
    (c6Body.warningThresholds.show90DayWarning = true ↔ c6Body.daysRemaining ≤ 90) ∧
    (c6Body.warningThresholds.show60DayWarning = true ↔ c6Body.daysRemaining ≤ 60) ∧
    (c6Body.warningThresholds.show45DayWarning = true ↔ c6Body.daysRemaining ≤ 45) ∧
    (c6Body.warningThresholds.show30DayWarning = true ↔ c6Body.daysRemaining ≤ 30) ∧
    (c6Body.warningThresholds.show15DayWarning = true ↔ c6Body.daysRemaining ≤ 15) ∧
    (c6Body.warningThresholds.showDailyWarning = true ↔ c6Body.daysRemaining ≤ 7) :=
  valid_verdict_warning_flags c9Store "K" "P" none "ip" "ua" 345600000 c6Body
    (by decide)

/-! ## Claim C7: expiry of generated licenses -/

/-- The license record assembled by `License.create` in the generate
handler, given the already-computed expiry. -/
def mkGeneratedLicense (pid cn ce lt : String) (maxA : Nat) (key : String)
    (nid : Nat) (cid : String) (now expAt : Nat) : License :=
  { id := nid
    licenseKey := key
    pluginId := pid
    customerId := cid
    customerEmail := ce
    customerName := cn
    licenseType := lt
    status := .active
    issuedAt := now
    expiresAt := expAt
    activatedAt := none
    activatedBy := none
    activationCount := 0
    maxActivations := maxA
    metadata := {} }

/-- C7: generating with licenseType "3-year" yields a license issued at
`now` whose `expiresAt` is exactly 1095 days after the issuance time;
generating with "perpetual" yields `expiresAt` equal to the far-future
sentinel (2099-12-31 in epoch milliseconds), and the validate handler's
expiry test never fires on it for any clock before the sentinel. -/
theorem generate_expiry_spec (s : Store) (pid cn ce key cid : String) (nid : Nat)
    (now : Nat) (mA : Option Nat)
    (hpid : pid ≠ "") (hcn : cn ≠ "") (hce : ce ≠ "") :
    (∃ l, (generateLicense s pid cn ce "3-year" mA key nid cid now).fst = .success l ∧
      l.issuedAt = now ∧ l.expiresAt = l.issuedAt + 1095 * msPerDay) ∧
    (∃ l, (generateLicense s pid cn ce "perpetual" mA key nid cid now).fst = .success l ∧
      l.expiresAt = perpetualSentinelMs ∧
      ∀ t, t < perpetualSentinelMs → licenseIsExpiredAt l t = false) := by
  constructor
  · refine ⟨mkGeneratedLicense pid cn ce "3-year" (mA.getD 1) key nid cid now
      (now + 1095 * msPerDay), ?_, rfl, rfl⟩
    simp [generateLicense, mkGeneratedLicense, hpid, hcn, hce, licenseValidityDays]
  · refine ⟨mkGeneratedLicense pid cn ce "perpetual" (mA.getD 1) key nid cid now
      perpetualSentinelMs, ?_, rfl, ?_⟩
    · simp [generateLicense, mkGeneratedLicense, hpid, hcn, hce]
    · intro t ht
      simp only [licenseIsExpiredAt, decide_eq_false_iff_not]
      exact fun hcontra => absurd ht (Nat.lt_asymm hcontra)

/-- C7 witness: concrete generation calls for both license types. -/
theorem generate_expiry_spec_witness :
    (∃ l, (generateLicense { licenses := [], activations := [], nextActivationId := 0 }
        "P" "n" "e" "3-year" none "K" 1 "C" 1000).fst = .success l ∧
      l.issuedAt = 1000 ∧ l.expiresAt = l.issuedAt + 1095 * msPerDay) ∧
    (∃ l, (generateLicense { licenses := [], activations := [], nextActivationId := 0 }
        "P" "n" "e" "perpetual" none "K" 1 "C" 1000).fst = .success l ∧
      l.expiresAt = perpetualSentinelMs ∧
      ∀ t, t < perpetualSentinelMs → licenseIsExpiredAt l t = false) :=
  generate_expiry_spec { licenses := [], activations := [], nextActivationId := 0 }
    "P" "n" "e" "K" "C" 1 1000 none (by decide) (by decide) (by decide)

/-! ## Claim C10: maxActivations is caller-supplied with no lower bound -/

/-- The empty store, start state for the C10 scenario. -/
def emptyStore : Store :=
  { licenses := [], activations := [], nextActivationId := 0 }

/-- C10: generation defaults an absent `maxActivations` to 1, and a
caller-supplied 0 is accepted unchecked; on the resulting license, while
it is unexpired, every validate call carrying a (nonempty) machineId
answers the invalid verdict "Maximum number of activations reached" and
changes nothing (so this holds for every such call, however often
repeated), while a validate call without a machineId answers the
`valid: true` response. -/
theorem generate_zero_maxActivations (pid cn ce key cid ip ua m : String) (nid : Nat)
    (now : Nat)
    (hpid : pid ≠ "") (hcn : cn ≠ "") (hce : ce ≠ "") (hkey : key ≠ "")
    (hm : m ≠ "") :
    (∃ l, (generateLicense emptyStore pid cn ce "perpetual" none key nid cid now).fst =
      .success l ∧ l.maxActivations = 1) ∧
    (∃ l s', generateLicense emptyStore pid cn ce "perpetual" (some 0) key nid cid now =
      (.success l, s') ∧ l.maxActivations = 0 ∧
      ∀ now2, ¬ l.expiresAt < now2 →
        validate s' key pid (some m) ip ua now2 =
          (.invalid "Maximum number of activations reached", s') ∧
        validate s' key pid none ip ua now2 =
          (validResponse l ((l.expiresAt - now2) / msPerDay), s')) := by
  constructor
  · refine ⟨mkGeneratedLicense pid cn ce "perpetual" 1 key nid cid now
      perpetualSentinelMs, ?_, rfl⟩
    simp [generateLicense, mkGeneratedLicense, hpid, hcn, hce]
  · refine ⟨mkGeneratedLicense pid cn ce "perpetual" 0 key nid cid now
      perpetualSentinelMs,
      { licenses := [mkGeneratedLicense pid cn ce "perpetual" 0 key nid cid now
          perpetualSentinelMs], activations := [], nextActivationId := 0 },
      ?_, rfl, ?_⟩
    · simp [generateLicense, mkGeneratedLicense, hpid, hcn, hce, emptyStore]
    · intro now2 hexp
      simp only [mkGeneratedLicense] at hexp
      constructor
      · simp [validate, hkey, hpid, licenseIsExpiredAt, hexp, hm, findLicense,
          findActiveActivation, activeActivationsOf, mkGeneratedLicense,
          List.find?]
      · simp [validate, hkey, hpid, licenseIsExpiredAt, hexp, findLicense,
          mkGeneratedLicense, List.find?]

/-- C10 witness: a concrete generation with `maxActivations = 0` and the
two validate behaviors at a concrete clock. -/
theorem generate_zero_maxActivations_witness :
    (∃ l, (generateLicense emptyStore "P" "n" "e" "perpetual" none "K" 1 "C" 1000).fst =
      .success l ∧ l.maxActivations = 1) ∧
    (∃ l s', generateLicense emptyStore "P" "n" "e" "perpetual" (some 0) "K" 1 "C" 1000 =
      (.success l, s') ∧ l.maxActivations = 0 ∧
      ∀ now2, ¬ l.expiresAt < now2 →
        validate s' "K" "P" (some "A") "ip" "ua" now2 =
          (.invalid "Maximum number of activations reached", s') ∧
        validate s' "K" "P" none "ip" "ua" now2 =
          (validResponse l ((l.expiresAt - now2) / msPerDay), s')) :=
  generate_zero_maxActivations "P" "n" "e" "K" "C" "ip" "ua" "A" 1 1000
    (by decide) (by decide) (by decide) (by decide) (by decide)

/-! ## Claim C1: the activationCount invariant -/

/-- Appending one activation to the table changes a license's active
count by one exactly when the new activation is an active one of that
license. -/
theorem activeActivationsOf_append_one (s : Store) (act : Activation) (nid i : Nat) :
    activeActivationsOf
      { s with activations := s.activations ++ [act], nextActivationId := nid } i =
      activeActivationsOf s i +
        (if act.licenseId == i && act.status == ActivationStatus.active then 1 else 0) := by
  show ((s.activations ++ [act]).filter _).length = _
  rw [List.filter_append, List.length_append]
  by_cases hc : (act.licenseId == i && act.status == ActivationStatus.active) = true
  · simp [List.filter, hc, activeActivationsOf]
  · simp only [Bool.not_eq_true] at hc
    simp [List.filter, hc, activeActivationsOf]

/-- A license-row update that keeps `activationCount` and the id keeps
the invariant. -/
theorem countInvariant_updateLicenseById (s : Store) (lid : Nat)
    (f : License → License)
    (hcount : ∀ x, (f x).activationCount = x.activationCount)
    (hid : ∀ x, (f x).id = x.id)
    (h : countInvariant s) : countInvariant (updateLicenseById s lid f) := by
  intro l' hl'
  simp only [updateLicenseById] at hl'
  rcases List.mem_map.mp hl' with ⟨l0, hl0, heq⟩
  rw [activeActivationsOf_updateLicenseById]
  by_cases h0 : l0.id = lid
  · rw [if_pos h0] at heq
    rw [← heq, hcount l0, hid l0]
    exact h l0 hl0
  · rw [if_neg h0] at heq
    rw [← heq]
    exact h l0 hl0

/-- An activation-row update that keeps `licenseId` and `status` keeps
the invariant. -/
theorem countInvariant_updateActivationById (s : Store) (aid : Nat)
    (f : Activation → Activation)
    (hlic : ∀ a, (f a).licenseId = a.licenseId)
    (hst : ∀ a, (f a).status = a.status)
    (h : countInvariant s) : countInvariant (updateActivationById s aid f) := by
  intro l hl
  have hcnt : activeActivationsOf (updateActivationById s aid f) l.id
      = activeActivationsOf s l.id := by
    show ((s.activations.map _).filter _).length = _
    exact filter_length_map _ _ (fun a => by
      by_cases ha : a.id = aid
      · simp [ha, hlic, hst]
      · simp [ha]) _
  rw [hcnt]
  exact h l hl

/-- Inserting a fresh active activation of license `lid` while
incrementing that license's `activationCount` keeps the invariant. -/
theorem countInvariant_create (s : Store) (lid nid : Nat) (act : Activation)
    (t : Nat) (mi : String)
    (hal : act.licenseId = lid) (hast : act.status = ActivationStatus.active)
    (h : countInvariant s) :
    countInvariant (updateLicenseById
      { s with activations := s.activations ++ [act], nextActivationId := nid }
      lid (fun x => { x with activationCount := x.activationCount + 1
                             activatedAt := some t
                             activatedBy := some mi })) := by
  intro l' hl'
  simp only [updateLicenseById] at hl'
  rcases List.mem_map.mp hl' with ⟨l0, hl0, heq⟩
  have hbase := h l0 hl0
  rw [activeActivationsOf_updateLicenseById]
  by_cases h0 : l0.id = lid
  · rw [if_pos h0] at heq
    rw [← heq]
    rw [activeActivationsOf_append_one]
    have hcond : (act.licenseId == l0.id && act.status == ActivationStatus.active)
        = true := by
      simp [hal, h0, hast]
    rw [hcond]
    simp only [if_pos rfl]
    show l0.activationCount + 1 = activeActivationsOf s l0.id + 1
    rw [hbase]
  · rw [if_neg h0] at heq
    rw [← heq]
    rw [activeActivationsOf_append_one]
    have hcond : (act.licenseId == l0.id && act.status == ActivationStatus.active)
        = false := by
      have : act.licenseId ≠ l0.id := by rw [hal]; exact fun hx => h0 hx.symm
      simp [this]
    rw [hcond]
    simp only [Bool.false_eq_true, if_false, Nat.add_zero]
    exact hbase

/-- Every single validate call keeps the activationCount invariant. -/
theorem validate_preserves_countInvariant (s : Store) (k p : String)
    (m : Option String) (ip ua : String) (now : Nat)
    (h : countInvariant s) :
    countInvariant (validate s k p m ip ua now).snd := by
  unfold validate
  split
  · exact h
  · split
    · exact h
    · rename_i license hfind
      split
      · exact countInvariant_updateLicenseById s license.id _
          (fun x => rfl) (fun x => rfl) h
      · split
        · exact h
        · split
          · exact h
          · split
            · exact h
            · split
              · exact countInvariant_updateActivationById s _ _
                  (fun a => rfl) (fun a => rfl) h
              · split
                · exact h
                · exact countInvariant_create s license.id _ _ now _ rfl rfl h

/-- A sequence of validate-only operations keeps the invariant. -/
theorem runOps_validate_preserves (ops : List Op) :
    ∀ s, countInvariant s → (∀ op ∈ ops, op.isValidate = true) →
      countInvariant (runOps s ops) := by
  induction ops with
  | nil => intro s hs _; exact hs
  | cons op rest ih =>
    intro s hs hops
    have hstep : runOps s (op :: rest) = runOps (applyOp s op) rest := by
      simp [runOps]
    rw [hstep]
    cases op with
    | validateOp k p m ip ua now =>
      exact ih (applyOp s (.validateOp k p m ip ua now))
        (validate_preserves_countInvariant s k p m ip ua now hs)
        (fun o ho => hops o (List.mem_cons_of_mem _ ho))
    | revokeOp lid r now =>
      have hcontra := hops _ (List.mem_cons_self _ _)
      simp [Op.isValidate] at hcontra

/-- C1 (amended): starting from a freshly issued license (count 0, no
activations), any finite sequence of validate operations preserves
`activationCount = count of active Activations` for every stored
license.  The restriction to validate-only sequences is forced: the
revoke handler flips the activations to revoked but never resets
`activationCount`. -/
theorem activationCount_invariant_validate_only (l : License)
    (h0 : l.activationCount = 0) (ops : List Op)
    (hops : ∀ op ∈ ops, op.isValidate = true) :
    countInvariant (runOps (freshStore l) ops) := by
  have hbase : countInvariant (freshStore l) := by
    intro l' hl'
    simp only [freshStore, List.mem_singleton] at hl'
    subst hl'
    simpa [activeActivationsOf, freshStore] using h0
  exact runOps_validate_preserves ops (freshStore l) hbase hops

/-- A fresh two-slot license for the C1 counterexample and witness. -/
def c1License : License :=
  { id := 1
    licenseKey := "K"
    pluginId := "P"
    customerId := "C"
    customerEmail := "e"
    customerName := "n"
    licenseType := "1-year"
    status := .active
    issuedAt := 0
    expiresAt := 950400000
    activationCount := 0
    maxActivations := 2
    metadata := {} }

/-- C1 counterexample: one validate (which activates machine "A",
making activationCount 1) followed by one revoke (which revokes the
activation but leaves activationCount at 1) breaks the invariant. -/
theorem revoke_breaks_activationCount_invariant :
    ¬ countInvariant (runOps (freshStore c1License)
      [Op.validateOp "K" "P" (some "A") "ip" "ua" 10,
       Op.revokeOp 1 "compromised" 20]) := by
  decide

/-- C1 witness: a concrete validate-only sequence — two activations and
a revalidation — keeps the invariant. -/
theorem activationCount_invariant_validate_only_witness :
    countInvariant (runOps (freshStore c1License)
      [Op.validateOp "K" "P" (some "A") "ip" "ua" 10,
       Op.validateOp "K" "P" (some "B") "ip" "ua" 20,
       Op.validateOp "K" "P" (some "A") "ip" "ua" 30]) :=
  activationCount_invariant_validate_only c1License (by decide)
    [Op.validateOp "K" "P" (some "A") "ip" "ua" 10,
     Op.validateOp "K" "P" (some "B") "ip" "ua" 20,
     Op.validateOp "K" "P" (some "A") "ip" "ua" 30] (by decide)

end LicenseManager
